import Mathlib

/-!
Verification of the NodeStream consumer (`src/consumer.rs`).

The file shallowly embeds the data model and the three operations of
`NodeStreamConsumer` (`new`, `reset_with_session`, `poll`) together with the
contract of the external `kafka::consumer::Consumer` collaborator, and proves
the specification claims about them.

Modelling conventions:
* raw bytes are `List Nat`, broker offsets and epochs are `Nat` (`u64` values
  never overflowed by any operation here, which only copies them around);
* fallible collaborator calls return `Except String _`; the collaborator's
  own failure modes (fetch, local mark, broker commit, connection setup) are
  scripted inside the collaborator state so that every fault path of
  `consumer.rs` can be exercised;
* `&mut self` methods become functions returning the updated state next to
  the result; mutations performed before a failure persist, exactly as they
  do through a Rust `&mut` borrow.
-/

namespace NodeStream

/-- Modelled from the spec: `NodeStreamSessionId` is declared in `types.rs`,
which is not under `src/`. The spec describes it as an opaque, globally unique
token; we model tokens as natural numbers, freshly generated ones being drawn
from a monotone supply counter. -/
structure NodeStreamSessionId where
  id : Nat
deriving DecidableEq

/-- Modelled from the spec: pure, deterministic, injective mapping from a
session to a broker consumer-group identifier. -/
def NodeStreamSessionId.to_group_id (s : NodeStreamSessionId) : String :=
  "node-stream-session-" ++ toString s.id

/-- Modelled from the spec: `NodeStreamMessage` (declared in `types.rs`, not
under `src/`) pairs a decoded payload with the raw broker offset. -/
structure NodeStreamMessage (D : Type) where
  payload : D
  message_offset : Nat
deriving DecidableEq

/-- Modelled from the spec: the `NodeStreamConsumerError` taxonomy of
`types.rs` (not under `src/`). Collaborator errors and stringified decode
errors (`format!("\x7b:?\x7d", err)` in the source) are carried as strings;
the `topic` fields carry the resolved topic name. -/
inductive NodeStreamConsumerError where
  | UnableToCreateConsumer (err : String)
  | DuplicateSession (old : NodeStreamSessionId) (new : NodeStreamSessionId)
  | UnableToPollMessage (topic : String) (err : String)
  | PayloadDeserializeError (topic : String) (err : String)
  | UnableToMarkMessageConsumed (topic : String) (err : String)
  | UnableToCommitMessageConsumed (topic : String) (err : String)
deriving DecidableEq

/-- Modelled from the spec: the `NodeStreamPerEpochTopic` capability trait
(declared in `types.rs`, not under `src/`): resolve the topic name for an
epoch and decode raw payload bytes.  The metadata type parameter `M` is
phantom in the source and is carried the same way here. -/
structure NodeStreamPerEpochTopic (D : Type) (M : Type) where
  topic_for_epoch : Nat → String
  payload_from_bytes : List Nat → Except String D

/-- The `kafka::consumer::FetchOffset` policy passed to the builder. -/
inductive FetchOffset where
  | Earliest
  | Latest
deriving DecidableEq

/-- A raw broker message: value bytes plus broker offset
(`kafka::consumer::Message`). -/
structure Message where
  value : List Nat
  offset : Nat
deriving DecidableEq

/-- A batch of raw messages fetched together
(`kafka::consumer::MessageSet`). -/
structure MessageSet where
  messages : List Message
deriving DecidableEq

/-- Model of the external `kafka::consumer::Consumer` collaborator, exactly
as the spec describes its contract: a queue of messagesets in fetch order, a
local consumption cursor (`localPos`: how many messagesets of the queue have
been marked locally consumed), and the broker-committed cursor
(`committedPos`).  A fetch returns every messageset past the local cursor;
marking a set advances the local cursor past it; committing persists the
local cursor to the broker.  `fetchFail`, `markFailures` and `commitFail`
script the collaborator's failure modes. -/
structure Consumer where
  queue : List MessageSet
  localPos : Nat
  committedPos : Nat
  fetchFail : Bool
  markFailures : Nat → Bool
  commitFail : Bool

/-- Collaborator fetch (`Consumer::poll` of the kafka crate): all currently
available messagesets, i.e. those past the local cursor. -/
def Consumer.fetchPoll (k : Consumer) : Except String (List MessageSet) :=
  if k.fetchFail then Except.error "poll failed"
  else Except.ok (k.queue.drop k.localPos)

/-- Collaborator local mark (`Consumer::consume_messageset`): advance the
in-memory cursor past the messageset currently at the cursor. -/
def Consumer.consume_messageset (k : Consumer) (_w : MessageSet) :
    Except String Consumer :=
  if k.markFailures k.localPos then Except.error "consume failed"
  else Except.ok { k with localPos := k.localPos + 1 }

/-- Collaborator broker commit (`Consumer::commit_consumed`): persist the
local cursor as the broker-committed cursor. -/
def Consumer.commit_consumed (k : Consumer) : Except String Consumer :=
  if k.commitFail then Except.error "commit failed"
  else Except.ok { k with committedPos := k.localPos }

/-- The configuration accumulated by the kafka builder chain
`Consumer::from_hosts(..).with_group(..).with_topic(..)
.with_fallback_offset(..)` before `.create()`. -/
structure ConsumerConfig where
  hosts : List String
  group : String
  topic : String
  fallback_offset : FetchOffset
deriving DecidableEq

/-- `NodeStreamConsumer` (src/consumer.rs, lines 8-24).  The two
`PhantomData` fields are represented by the type parameters `D`, `M`
themselves. -/
structure NodeStreamConsumer (D : Type) (M : Type) where
  host_addr : String
  session : NodeStreamSessionId
  kafka_consumer : Consumer
  topic : NodeStreamPerEpochTopic D M
  epoch : Nat

variable {D M : Type}

/-- `NodeStreamConsumer::new` (src/consumer.rs, lines 34-57).  The broker
environment is the function `create`, standing for `.create()` on the builder
chain: it receives exactly the configuration the source accumulates and
either yields a connected collaborator handle or fails.  `freshId` is the
next value of the fresh-session supply used by `NodeStreamSessionId::new()`
when no session is passed in. -/
def NodeStreamConsumer.new (create : ConsumerConfig → Except String Consumer)
    (host_addr : String) (session_id : Option NodeStreamSessionId)
    (freshId : Nat) (epoch : Nat) (topic : NodeStreamPerEpochTopic D M) :
    Except NodeStreamConsumerError (NodeStreamConsumer D M) :=
  let topic_str := topic.topic_for_epoch epoch
  let session := session_id.getD ⟨freshId⟩
  match create { hosts := [host_addr], group := session.to_group_id,
                 topic := topic_str,
                 fallback_offset := FetchOffset.Earliest } with
  | Except.error err =>
      Except.error (NodeStreamConsumerError.UnableToCreateConsumer err)
  | Except.ok kafka_consumer =>
      Except.ok { host_addr := host_addr, session := session,
                  kafka_consumer := kafka_consumer, topic := topic,
                  epoch := epoch }

/-- `NodeStreamConsumer::reset_with_session` (src/consumer.rs, lines 60-73),
translated verbatim: after the duplicate-session guard it calls
`Self::new(self.host_addr, Some(self.session), self.epoch, self.topic)` —
note `Some(self.session)`, the OLD session, on the success path. -/
def NodeStreamConsumer.reset_with_session (c : NodeStreamConsumer D M)
    (create : ConsumerConfig → Except String Consumer)
    (session_id : Option NodeStreamSessionId) (freshId : Nat) :
    Except NodeStreamConsumerError (NodeStreamConsumer D M) :=
  let sid := session_id.getD ⟨freshId⟩
  if c.session = sid then
    Except.error (NodeStreamConsumerError.DuplicateSession c.session sid)
  else
    NodeStreamConsumer.new create c.host_addr (some c.session) freshId
      c.epoch c.topic

/-- The per-message decode step of `poll` (src/consumer.rs, lines 88-99):
decode the value bytes through the topic capability, wrapping a decode
failure as `PayloadDeserializeError` and a success as a `NodeStreamMessage`
carrying the raw broker offset. -/
def NodeStreamConsumer.decode_message (c : NodeStreamConsumer D M)
    (m : Message) : Except NodeStreamConsumerError (NodeStreamMessage D) :=
  match c.topic.payload_from_bytes m.value with
  | Except.error err =>
      Except.error (NodeStreamConsumerError.PayloadDeserializeError
        (c.topic.topic_for_epoch c.epoch) err)
  | Except.ok p => Except.ok { payload := p, message_offset := m.offset }

/-- The per-messageset decode collection of `poll` (src/consumer.rs,
lines 85-100): `w.messages().iter().map(..).collect::<Result<Vec<_>,_>>()`,
which short-circuits at the first failing message. -/
def NodeStreamConsumer.decode_messageset (c : NodeStreamConsumer D M)
    (w : MessageSet) :
    Except NodeStreamConsumerError (List (NodeStreamMessage D)) :=
  w.messages.mapM c.decode_message

/-- The per-messageset loop of `poll` (src/consumer.rs, lines 83-109): for
each fetched messageset in order, first collect the decode results (`vals`),
then mark the set locally consumed regardless of the decode outcome
(a mark failure is propagated with `?` BEFORE `vals` is inspected), then
propagate `vals`; the outer `collect::<Result<Vec<_>,_>>()` stops at the
first failing messageset.  The collaborator state is threaded through and,
as through a `&mut` borrow, survives a failure. -/
def NodeStreamConsumer.process_messagesets (c : NodeStreamConsumer D M) :
    List MessageSet → Consumer →
    Except NodeStreamConsumerError (List (List (NodeStreamMessage D)))
      × Consumer
  | [], k => (Except.ok [], k)
  | w :: ws, k =>
    let vals := c.decode_messageset w
    match k.consume_messageset w with
    | Except.error err =>
        (Except.error (NodeStreamConsumerError.UnableToMarkMessageConsumed
          (c.topic.topic_for_epoch c.epoch) err), k)
    | Except.ok k1 =>
      match vals with
      | Except.error e => (Except.error e, k1)
      | Except.ok v =>
        match c.process_messagesets ws k1 with
        | (Except.error e, k2) => (Except.error e, k2)
        | (Except.ok rest, k2) => (Except.ok (v :: rest), k2)

/-- `NodeStreamConsumer::poll` (src/consumer.rs, lines 75-121): fetch, then
the per-messageset loop, then flatten, then broker commit.  Returns the
result next to the updated consumer (the `&mut self` receiver). -/
def NodeStreamConsumer.poll (c : NodeStreamConsumer D M) :
    Except NodeStreamConsumerError (List (NodeStreamMessage D))
      × NodeStreamConsumer D M :=
  match c.kafka_consumer.fetchPoll with
  | Except.error err =>
      (Except.error (NodeStreamConsumerError.UnableToPollMessage
        (c.topic.topic_for_epoch c.epoch) err), c)
  | Except.ok sets =>
    match c.process_messagesets sets c.kafka_consumer with
    | (Except.error e, k) => (Except.error e, { c with kafka_consumer := k })
    | (Except.ok vss, k) =>
      match k.commit_consumed with
      | Except.error err =>
          (Except.error (NodeStreamConsumerError.UnableToCommitMessageConsumed
            (c.topic.topic_for_epoch c.epoch) err),
           { c with kafka_consumer := k })
      | Except.ok k2 =>
          (Except.ok vss.flatten, { c with kafka_consumer := k2 })

/-- `NodeStreamConsumer::session_id` (src/consumer.rs, lines 123-125). -/
def NodeStreamConsumer.session_id (c : NodeStreamConsumer D M) :
    NodeStreamSessionId :=
  c.session

/-- Iterated polling: the consumer state after `n` successive `poll` calls,
whatever their outcomes. -/
def NodeStreamConsumer.poll_iter (c : NodeStreamConsumer D M) :
    Nat → NodeStreamConsumer D M
  | 0 => c
  | n + 1 => ((c.poll).2).poll_iter n

/-! ## Helper lemmas about the collaborator state -/

/-- Abbreviation for moving the local cursor of a collaborator state. -/
def Consumer.withPos (k : Consumer) (p : Nat) : Consumer :=
  { k with localPos := p }

/-- Abbreviation for moving the broker-committed cursor of a collaborator
state. -/
def Consumer.withCommitted (k : Consumer) (p : Nat) : Consumer :=
  { k with committedPos := p }

/-! ## Concrete fixtures used by the witnesses -/

/-- Fixture: a topic capability over `Nat` payloads; a singleton byte list
below 100 decodes to that byte, everything else fails to decode. -/
def topicFix : NodeStreamPerEpochTopic Nat Unit where
  topic_for_epoch := fun e => "events-epoch-" ++ toString e
  payload_from_bytes := fun bs =>
    match bs with
    | [b] => if b < 100 then Except.ok b else Except.error "bad byte"
    | _ => Except.error "bad length"

/-- Fixture: a collaborator state with both cursors at zero and a reliable
fetch, with scripted mark and commit failures. -/
def kafkaFix (q : List MessageSet) (mf : Nat → Bool) (cf : Bool) : Consumer where
  queue := q
  localPos := 0
  committedPos := 0
  fetchFail := false
  markFailures := mf
  commitFail := cf

/-- Fixture: a consumer over `topicFix` at epoch 3 with session 0. -/
def consumerFix (q : List MessageSet) (mf : Nat → Bool) (cf : Bool) :
    NodeStreamConsumer Nat Unit where
  host_addr := "127.0.0.1:9092"
  session := ⟨0⟩
  kafka_consumer := kafkaFix q mf cf
  topic := topicFix
  epoch := 3

/-- Fixture: a broker environment whose `.create()` always succeeds. -/
def createOkFix : ConsumerConfig → Except String Consumer :=
  fun _ => Except.ok (kafkaFix [] (fun _ => false) false)

/-- Fixture: a broker environment whose `.create()` always fails. -/
def createErrFix : ConsumerConfig → Except String Consumer :=
  fun _ => Except.error "refused"

/-- Fixture messages: `msgA`/`msgC` decode (to 7 and 8), `msgBad` does not. -/
def msgA : Message := ⟨[7], 10⟩

def msgBad : Message := ⟨[200], 11⟩

def msgC : Message := ⟨[8], 12⟩

def setA : MessageSet := ⟨[msgA]⟩

def setBad : MessageSet := ⟨[msgBad]⟩

def setC : MessageSet := ⟨[msgC]⟩

@[simp] theorem Consumer.withPos_queue (k : Consumer) (p : Nat) :
    (k.withPos p).queue = k.queue := rfl

@[simp] theorem Consumer.withPos_localPos (k : Consumer) (p : Nat) :
    (k.withPos p).localPos = p := rfl

@[simp] theorem Consumer.withPos_committedPos (k : Consumer) (p : Nat) :
    (k.withPos p).committedPos = k.committedPos := rfl

@[simp] theorem Consumer.withPos_fetchFail (k : Consumer) (p : Nat) :
    (k.withPos p).fetchFail = k.fetchFail := rfl

@[simp] theorem Consumer.withPos_markFailures (k : Consumer) (p : Nat) :
    (k.withPos p).markFailures = k.markFailures := rfl

@[simp] theorem Consumer.withPos_commitFail (k : Consumer) (p : Nat) :
    (k.withPos p).commitFail = k.commitFail := rfl

@[simp] theorem Consumer.withPos_withPos (k : Consumer) (p q : Nat) :
    (k.withPos p).withPos q = k.withPos q := rfl

@[simp] theorem Consumer.withPos_self (k : Consumer) :
    k.withPos k.localPos = k := rfl

@[simp] theorem Consumer.withCommitted_queue (k : Consumer) (p : Nat) :
    (k.withCommitted p).queue = k.queue := rfl

@[simp] theorem Consumer.withCommitted_localPos (k : Consumer) (p : Nat) :
    (k.withCommitted p).localPos = k.localPos := rfl

@[simp] theorem Consumer.withCommitted_committedPos (k : Consumer) (p : Nat) :
    (k.withCommitted p).committedPos = p := rfl

@[simp] theorem Consumer.withCommitted_fetchFail (k : Consumer) (p : Nat) :
    (k.withCommitted p).fetchFail = k.fetchFail := rfl

@[simp] theorem Consumer.withCommitted_markFailures (k : Consumer) (p : Nat) :
    (k.withCommitted p).markFailures = k.markFailures := rfl

@[simp] theorem Consumer.withCommitted_commitFail (k : Consumer) (p : Nat) :
    (k.withCommitted p).commitFail = k.commitFail := rfl

theorem Consumer.consume_messageset_ok (k : Consumer) (w : MessageSet)
    (h : k.markFailures k.localPos = false) :
    k.consume_messageset w = Except.ok (k.withPos (k.localPos + 1)) := by
  simp [Consumer.consume_messageset, Consumer.withPos, h]

theorem Consumer.consume_messageset_fail (k : Consumer) (w : MessageSet)
    (h : k.markFailures k.localPos = true) :
    k.consume_messageset w = Except.error "consume failed" := by
  simp [Consumer.consume_messageset, h]

/-! ## Processing a prefix of cleanly decoding, cleanly marking messagesets -/

/-- Processing `ws₁ ++ rest` when every messageset of `ws₁` decodes cleanly
and every local mark for `ws₁` succeeds: the loop advances the local cursor
past `ws₁`, prepends the decoded batches of `ws₁` to whatever `rest`
produces, and otherwise behaves as processing `rest` from the advanced
cursor. -/
theorem process_append_ok (c : NodeStreamConsumer D M) (ws₁ : List MessageSet) :
    ∀ (k : Consumer) (vss : List (List (NodeStreamMessage D))),
      (∀ j, j < ws₁.length → k.markFailures (k.localPos + j) = false) →
      ws₁.mapM c.decode_messageset = Except.ok vss →
      ∀ rest : List MessageSet,
        c.process_messagesets (ws₁ ++ rest) k =
          ((c.process_messagesets rest
              (k.withPos (k.localPos + ws₁.length))).1.map
             (fun r => vss ++ r),
           (c.process_messagesets rest
              (k.withPos (k.localPos + ws₁.length))).2) := by
  induction ws₁ with
  | nil =>
    intro k vss hmark hdec rest
    have hv : vss = [] := (Except.ok.inj hdec).symm
    subst hv
    show c.process_messagesets rest k =
      ((c.process_messagesets rest k).1.map (fun r => [] ++ r),
       (c.process_messagesets rest k).2)
    rcases hp : c.process_messagesets rest k with ⟨r1, k2⟩
    cases r1 <;> simp [Except.map]
  | cons w ws ih =>
    intro k vss hmark hdec rest
    rw [List.mapM_cons] at hdec
    cases hw : c.decode_messageset w with
    | error e =>
      rw [hw] at hdec
      cases (show (Except.error e :
          Except NodeStreamConsumerError (List (List (NodeStreamMessage D))))
          = Except.ok vss from hdec)
    | ok v =>
      rw [hw] at hdec
      have h2 : (List.mapM c.decode_messageset ws >>= fun bs =>
          pure (v :: bs) :
          Except NodeStreamConsumerError (List (List (NodeStreamMessage D))))
          = Except.ok vss := hdec
      cases hws : List.mapM c.decode_messageset ws with
      | error e =>
        rw [hws] at h2
        cases (show (Except.error e :
            Except NodeStreamConsumerError (List (List (NodeStreamMessage D))))
            = Except.ok vss from h2)
      | ok vs =>
        rw [hws] at h2
        have hv : vss = v :: vs := (Except.ok.inj
          (show (Except.ok (v :: vs) :
            Except NodeStreamConsumerError (List (List (NodeStreamMessage D))))
            = Except.ok vss from h2)).symm
        subst hv
        have h0 : k.markFailures k.localPos = false := by
          have h := hmark 0 (by simp)
          simpa using h
        have hmark' : ∀ j, j < ws.length →
            (k.withPos (k.localPos + 1)).markFailures
              ((k.withPos (k.localPos + 1)).localPos + j) = false := by
          intro j hj
          simp only [Consumer.withPos_markFailures, Consumer.withPos_localPos]
          have harith : k.localPos + 1 + j = k.localPos + (j + 1) := by omega
          rw [harith]
          exact hmark (j + 1) (by simp; omega)
        show c.process_messagesets (w :: (ws ++ rest)) k = _
        simp only [NodeStreamConsumer.process_messagesets,
          Consumer.consume_messageset_ok k w h0, hw]
        rw [ih (k.withPos (k.localPos + 1)) vs hmark' hws rest]
        simp only [Consumer.withPos_withPos, Consumer.withPos_localPos]
        have harith : k.localPos + 1 + ws.length
            = k.localPos + (w :: ws).length := by simp; omega
        rw [harith]
        rcases hp : c.process_messagesets rest
            (k.withPos (k.localPos + (w :: ws).length)) with ⟨r1, k2⟩
        cases r1 <;> simp [Except.map]

/-- Processing a list of cleanly decoding, cleanly marking messagesets:
all decoded batches are returned and the cursor advances past all of them. -/
theorem process_ok (c : NodeStreamConsumer D M) (ws : List MessageSet)
    (k : Consumer) (vss : List (List (NodeStreamMessage D)))
    (hmark : ∀ j, j < ws.length → k.markFailures (k.localPos + j) = false)
    (hdec : ws.mapM c.decode_messageset = Except.ok vss) :
    c.process_messagesets ws k
      = (Except.ok vss, k.withPos (k.localPos + ws.length)) := by
  have h := process_append_ok c ws k vss hmark hdec []
  rw [List.append_nil] at h
  rw [h]
  show (Except.map (fun r => vss ++ r) (Except.ok []),
    k.withPos (k.localPos + ws.length)) = _
  simp [Except.map]

theorem Consumer.commit_consumed_ok (k : Consumer) (h : k.commitFail = false) :
    k.commit_consumed = Except.ok (k.withCommitted k.localPos) := by
  simp [Consumer.commit_consumed, Consumer.withCommitted, h]

theorem Consumer.commit_consumed_fail (k : Consumer) (h : k.commitFail = true) :
    k.commit_consumed = Except.error "commit failed" := by
  simp [Consumer.commit_consumed, h]

/-- Dropping a known decomposition: dropping the prefix as well leaves the
suffix. -/
theorem drop_prefix {α : Type} (l : List α) (p : Nat) (xs ys : List α)
    (h : l.drop p = xs ++ ys) : l.drop (p + xs.length) = ys := by
  have h2 : (l.drop p).drop xs.length = ys := by
    rw [h]
    exact List.drop_left xs ys
  rw [List.drop_drop] at h2
  exact h2

/-- A successful per-message decode pairs the decoded payload with the raw
broker offset of the underlying message. -/
theorem decode_message_ok (c : NodeStreamConsumer D M) (m : Message)
    (b : NodeStreamMessage D) (h : c.decode_message m = Except.ok b) :
    b.message_offset = m.offset ∧
    c.topic.payload_from_bytes m.value = Except.ok b.payload := by
  unfold NodeStreamConsumer.decode_message at h
  cases hp : c.topic.payload_from_bytes m.value with
  | error e => rw [hp] at h; simp at h
  | ok p =>
    rw [hp] at h
    have h2 : ({ payload := p, message_offset := m.offset } :
        NodeStreamMessage D) = b := Except.ok.inj h
    subst h2
    exact ⟨rfl, rfl⟩

/-- A failing per-message decode always fails with
`PayloadDeserializeError` at the consumer's resolved topic. -/
theorem decode_message_error_shape (c : NodeStreamConsumer D M) (m : Message)
    (e : NodeStreamConsumerError) (h : c.decode_message m = Except.error e) :
    ∃ s, e = NodeStreamConsumerError.PayloadDeserializeError
      (c.topic.topic_for_epoch c.epoch) s := by
  unfold NodeStreamConsumer.decode_message at h
  cases hp : c.topic.payload_from_bytes m.value with
  | error err =>
    rw [hp] at h
    exact ⟨err, (Except.error.inj h).symm⟩
  | ok p => rw [hp] at h; simp at h

/-- A failing messageset decode always fails with
`PayloadDeserializeError` at the consumer's resolved topic. -/
theorem decode_messageset_error_shape (c : NodeStreamConsumer D M) :
    ∀ (ms : List Message) (e : NodeStreamConsumerError),
      ms.mapM c.decode_message = Except.error e →
      ∃ s, e = NodeStreamConsumerError.PayloadDeserializeError
        (c.topic.topic_for_epoch c.epoch) s := by
  intro ms
  induction ms with
  | nil =>
    intro e h
    cases (show (Except.ok [] :
      Except NodeStreamConsumerError (List (NodeStreamMessage D)))
      = Except.error e from h)
  | cons m ms ih =>
    intro e h
    rw [List.mapM_cons] at h
    cases hm : c.decode_message m with
    | error e1 =>
      rw [hm] at h
      have h2 : (Except.error e1 :
          Except NodeStreamConsumerError (List (NodeStreamMessage D)))
          = Except.error e := h
      have he : e1 = e := Except.error.inj h2
      subst he
      exact decode_message_error_shape c m e1 hm
    | ok b =>
      rw [hm] at h
      have h2 : (List.mapM c.decode_message ms >>= fun bs =>
          pure (b :: bs) :
          Except NodeStreamConsumerError (List (NodeStreamMessage D)))
          = Except.error e := h
      cases hms : List.mapM c.decode_message ms with
      | error e1 =>
        rw [hms] at h2
        have he : e1 = e := Except.error.inj h2
        subst he
        exact ih e1 hms
      | ok bs =>
        rw [hms] at h2
        cases (show (Except.ok (b :: bs) :
          Except NodeStreamConsumerError (List (NodeStreamMessage D)))
          = Except.error e from h2)

/-- A successful messageset decode preserves order: the decoded batch lines
up one-to-one with the raw messages, pairing each decoded payload with the
raw broker offset of its underlying message. -/
theorem decode_messageset_pairs (c : NodeStreamConsumer D M) :
    ∀ (ms : List Message) (v : List (NodeStreamMessage D)),
      ms.mapM c.decode_message = Except.ok v →
      v.map (fun x => x.message_offset) = ms.map (fun m => m.offset) ∧
      v.map (fun x => Except.ok x.payload)
        = ms.map (fun m => c.topic.payload_from_bytes m.value) := by
  intro ms
  induction ms with
  | nil =>
    intro v h
    have hv : v = [] := (Except.ok.inj h).symm
    subst hv
    exact ⟨rfl, rfl⟩
  | cons m ms ih =>
    intro v h
    rw [List.mapM_cons] at h
    cases hm : c.decode_message m with
    | error e1 =>
      rw [hm] at h
      cases (show (Except.error e1 :
        Except NodeStreamConsumerError (List (NodeStreamMessage D)))
        = Except.ok v from h)
    | ok b =>
      rw [hm] at h
      have h2 : (List.mapM c.decode_message ms >>= fun bs =>
          pure (b :: bs) :
          Except NodeStreamConsumerError (List (NodeStreamMessage D)))
          = Except.ok v := h
      cases hms : List.mapM c.decode_message ms with
      | error e1 =>
        rw [hms] at h2
        cases (show (Except.error e1 :
          Except NodeStreamConsumerError (List (NodeStreamMessage D)))
          = Except.ok v from h2)
      | ok bs =>
        rw [hms] at h2
        have hv : v = b :: bs := (Except.ok.inj
          (show (Except.ok (b :: bs) :
            Except NodeStreamConsumerError (List (NodeStreamMessage D)))
            = Except.ok v from h2)).symm
        subst hv
        obtain ⟨hoff, hpay⟩ := ih bs hms
        obtain ⟨hb1, hb2⟩ := decode_message_ok c m b hm
        simp only [List.map_cons]
        exact ⟨by rw [hoff, hb1], by rw [hpay, hb2]⟩

/-- A single `poll` never touches the identity fields of the consumer: only
the collaborator handle changes. -/
theorem poll_snd_preserves (c : NodeStreamConsumer D M) :
    ((c.poll).2).host_addr = c.host_addr ∧
    ((c.poll).2).session = c.session ∧
    ((c.poll).2).topic = c.topic ∧
    ((c.poll).2).epoch = c.epoch := by
  unfold NodeStreamConsumer.poll
  rcases hf : c.kafka_consumer.fetchPoll with e | sets
  · simp
  · rcases hp : c.process_messagesets sets c.kafka_consumer with ⟨r1, k⟩
    cases r1 with
    | error e => simp [hp]
    | ok vss =>
      rcases hc : k.commit_consumed with e2 | k2 <;> simp [hp, hc]

/-! ## Claims -/

/-- **C1** (the claim is refuted by the code): the claim says the replacement
consumer built on the success path of `reset_with_session` is seeded with the
new, validated candidate session.  The source instead passes
`Some(self.session)` — the old session — to `Self::new`.  At the concrete
failing input (current session 0, candidate session 1, broker environment
that accepts the connection) the reset succeeds and the replacement's
`session_id()` is the old session 0, not the candidate 1. -/
theorem reset_with_session_seeds_old_session :
    ((consumerFix [] (fun _ => false) false).reset_with_session createOkFix
        (some ⟨1⟩) 7).map (fun r => r.session_id)
      = Except.ok (consumerFix [] (fun _ => false) false).session_id ∧
    (consumerFix [] (fun _ => false) false).session_id
      ≠ NodeStreamSessionId.mk 1 :=
  ⟨rfl, by decide⟩

/-- **C3**: for every consumer and every candidate session equal to the
current session — whether passed explicitly or freshly generated —
`reset_with_session` fails with `DuplicateSession` whose `old` and `new`
fields both equal the current session; returning the error, it never
constructs a replacement consumer. -/
theorem reset_with_session_duplicate_rejected
    (c : NodeStreamConsumer D M)
    (create : ConsumerConfig → Except String Consumer)
    (session_id : Option NodeStreamSessionId) (freshId : Nat)
    (h : session_id.getD ⟨freshId⟩ = c.session) :
    c.reset_with_session create session_id freshId =
      Except.error (NodeStreamConsumerError.DuplicateSession
        c.session c.session) := by
  simp [NodeStreamConsumer.reset_with_session, h]

/-- Witness for the C3 theorem at a concrete input: resetting a session-0
consumer onto the explicit session 0. -/
theorem reset_with_session_duplicate_rejected_witness :
    (consumerFix [] (fun _ => false) false).reset_with_session createOkFix
        (some ⟨0⟩) 7 =
      Except.error (NodeStreamConsumerError.DuplicateSession ⟨0⟩ ⟨0⟩) :=
  reset_with_session_duplicate_rejected (consumerFix [] (fun _ => false) false)
    createOkFix (some ⟨0⟩) 7 rfl

/-- **C5**: `new` resolves the session (the supplied one, or a freshly
generated one when none is supplied), configures the bus client with exactly
the host address, the group id `to_group_id()` of that session, the one
topic name `topic_for_epoch(epoch)`, and fallback offset `Earliest`; a
collaborator creation failure is passed through as
`UnableToCreateConsumer`, and on success the consumer holds exactly the
resolved session, handle, topic, address and epoch. -/
theorem new_uses_session_topic_earliest
    (create : ConsumerConfig → Except String Consumer) (host : String)
    (session_id : Option NodeStreamSessionId) (freshId : Nat) (epoch : Nat)
    (topic : NodeStreamPerEpochTopic D M) :
    (∀ err, create { hosts := [host],
                     group := (session_id.getD ⟨freshId⟩).to_group_id,
                     topic := topic.topic_for_epoch epoch,
                     fallback_offset := FetchOffset.Earliest }
          = Except.error err →
        NodeStreamConsumer.new create host session_id freshId epoch topic =
          Except.error (NodeStreamConsumerError.UnableToCreateConsumer err)) ∧
    (∀ k, create { hosts := [host],
                   group := (session_id.getD ⟨freshId⟩).to_group_id,
                   topic := topic.topic_for_epoch epoch,
                   fallback_offset := FetchOffset.Earliest }
          = Except.ok k →
        NodeStreamConsumer.new create host session_id freshId epoch topic =
          Except.ok { host_addr := host, session := session_id.getD ⟨freshId⟩,
                      kafka_consumer := k, topic := topic,
                      epoch := epoch }) := by
  constructor
  · intro err herr
    simp [NodeStreamConsumer.new, herr]
  · intro k hk
    simp [NodeStreamConsumer.new, hk]

/-- Witness for the C5 theorem: a refusing environment is passed through as
`UnableToCreateConsumer`; an accepting one yields the configured consumer
with the supplied session. -/
theorem new_uses_session_topic_earliest_witness :
    NodeStreamConsumer.new createErrFix "127.0.0.1:9092" none 7 3 topicFix =
      Except.error (NodeStreamConsumerError.UnableToCreateConsumer "refused") ∧
    NodeStreamConsumer.new createOkFix "127.0.0.1:9092" (some ⟨5⟩) 7 3
        topicFix =
      Except.ok { host_addr := "127.0.0.1:9092", session := ⟨5⟩,
                  kafka_consumer := kafkaFix [] (fun _ => false) false,
                  topic := topicFix, epoch := 3 } :=
  ⟨(new_uses_session_topic_earliest createErrFix "127.0.0.1:9092" none 7 3
      topicFix).1 "refused" rfl,
   (new_uses_session_topic_earliest createOkFix "127.0.0.1:9092" (some ⟨5⟩) 7 3
      topicFix).2 (kafkaFix [] (fun _ => false) false) rfl⟩

/-- **C8**: across any number of `poll` calls, successful or failing, the
consumer's epoch, session, host address and topic capability are unchanged,
and `session_id()` returns the same value before and after. -/
theorem poll_iter_preserves_identity (c : NodeStreamConsumer D M) (n : Nat) :
    (c.poll_iter n).epoch = c.epoch ∧
    (c.poll_iter n).session_id = c.session_id ∧
    (c.poll_iter n).host_addr = c.host_addr ∧
    (c.poll_iter n).topic = c.topic ∧
    (c.poll_iter n).session = c.session := by
  induction n generalizing c with
  | zero => exact ⟨rfl, rfl, rfl, rfl, rfl⟩
  | succ n ih =>
    have h := poll_snd_preserves c
    have h2 := ih ((c.poll).2)
    simp only [NodeStreamConsumer.poll_iter]
    exact ⟨h2.1.trans h.2.2.2, h2.2.1.trans h.2.1, h2.2.2.1.trans h.1,
           h2.2.2.2.1.trans h.2.2.1, h2.2.2.2.2.trans h.2.1⟩

/-- **C6**: when every fetched messageset decodes and marks cleanly and the
broker commit succeeds, `poll` returns the flattened decoded batches in
fetch order — the empty sequence, with no error, when nothing was fetched —
and both cursors end advanced past every fetched set; every decoded message
pairs its payload with the raw broker offset of its underlying message. -/
theorem poll_success_returns_flattened (c : NodeStreamConsumer D M)
    (sets : List MessageSet) (vss : List (List (NodeStreamMessage D)))
    (hfetch : c.kafka_consumer.fetchFail = false)
    (hq : c.kafka_consumer.queue.drop c.kafka_consumer.localPos = sets)
    (hmark : ∀ j, j < sets.length →
      c.kafka_consumer.markFailures (c.kafka_consumer.localPos + j) = false)
    (hdec : sets.mapM c.decode_messageset = Except.ok vss)
    (hcommit : c.kafka_consumer.commitFail = false) :
    (c.poll).1 = Except.ok vss.flatten ∧
    ((c.poll).2).kafka_consumer.localPos
      = c.kafka_consumer.localPos + sets.length ∧
    ((c.poll).2).kafka_consumer.committedPos
      = c.kafka_consumer.localPos + sets.length ∧
    (∀ w v, c.decode_messageset w = Except.ok v →
      v.map (fun x => x.message_offset)
        = w.messages.map (fun m => m.offset) ∧
      v.map (fun x => Except.ok x.payload)
        = w.messages.map (fun m => c.topic.payload_from_bytes m.value)) := by
  have hfp : c.kafka_consumer.fetchPoll = Except.ok sets := by
    simp [Consumer.fetchPoll, hfetch, hq]
  have hproc := process_ok c sets c.kafka_consumer vss hmark hdec
  have hcomm : (c.kafka_consumer.withPos
      (c.kafka_consumer.localPos + sets.length)).commit_consumed
      = Except.ok ((c.kafka_consumer.withPos
          (c.kafka_consumer.localPos + sets.length)).withCommitted
        (c.kafka_consumer.localPos + sets.length)) := by
    rw [Consumer.commit_consumed_ok _ (by simp [hcommit])]
    simp
  have hpoll : c.poll = (Except.ok vss.flatten,
      { c with kafka_consumer :=
                 (c.kafka_consumer.withPos
                     (c.kafka_consumer.localPos + sets.length)).withCommitted
                   (c.kafka_consumer.localPos + sets.length) }) := by
    simp only [NodeStreamConsumer.poll, hfp, hproc, hcomm]
  refine ⟨by rw [hpoll], by rw [hpoll]; simp, by rw [hpoll]; simp, ?_⟩
  intro w v hv
  exact decode_messageset_pairs c w.messages v hv

/-- Witness for the C6 theorem: a two-set queue yields the two decoded
messages with their raw offsets and both cursors at 2; an empty queue
yields the empty sequence with no error. -/
theorem poll_success_returns_flattened_witness :
    ((consumerFix [setA, setC] (fun _ => false) false).poll).1
      = Except.ok [⟨7, 10⟩, ⟨8, 12⟩] ∧
    (((consumerFix [setA, setC] (fun _ => false) false).poll).2).kafka_consumer.localPos
      = 2 ∧
    (((consumerFix [setA, setC] (fun _ => false) false).poll).2).kafka_consumer.committedPos
      = 2 ∧
    ([(⟨7, 10⟩ : NodeStreamMessage Nat)].map (fun x => x.message_offset)
      = setA.messages.map (fun m => m.offset)) ∧
    ((consumerFix [] (fun _ => false) false).poll).1
      = Except.ok ([] : List (NodeStreamMessage Nat)) := by
  have h := poll_success_returns_flattened
    (consumerFix [setA, setC] (fun _ => false) false)
    [setA, setC] [[⟨7, 10⟩], [⟨8, 12⟩]] rfl rfl (by decide) rfl rfl
  have h0 := poll_success_returns_flattened
    (consumerFix [] (fun _ => false) false) [] [] rfl rfl (by decide) rfl rfl
  exact ⟨h.1, h.2.1, h.2.2.1, (h.2.2.2 setA [⟨7, 10⟩] rfl).1, h0.1⟩

/-- **C4**: the broker commit is attempted only after every fetched set has
been decoded and locally marked (the committed value is the fully advanced
local cursor, and no error path reaches the commit); when the commit itself
fails, `poll` surfaces `UnableToCommitMessageConsumed` and the local cursor
stays advanced while the broker-committed cursor is unchanged — local and
committed progress diverge. -/
theorem poll_commit_failure_diverges (c : NodeStreamConsumer D M)
    (sets : List MessageSet) (vss : List (List (NodeStreamMessage D)))
    (hfetch : c.kafka_consumer.fetchFail = false)
    (hq : c.kafka_consumer.queue.drop c.kafka_consumer.localPos = sets)
    (hmark : ∀ j, j < sets.length →
      c.kafka_consumer.markFailures (c.kafka_consumer.localPos + j) = false)
    (hdec : sets.mapM c.decode_messageset = Except.ok vss)
    (hcommit : c.kafka_consumer.commitFail = true) :
    (c.poll).1 = Except.error
      (NodeStreamConsumerError.UnableToCommitMessageConsumed
        (c.topic.topic_for_epoch c.epoch) "commit failed") ∧
    ((c.poll).2).kafka_consumer.localPos
      = c.kafka_consumer.localPos + sets.length ∧
    ((c.poll).2).kafka_consumer.committedPos
      = c.kafka_consumer.committedPos := by
  have hfp : c.kafka_consumer.fetchPoll = Except.ok sets := by
    simp [Consumer.fetchPoll, hfetch, hq]
  have hproc := process_ok c sets c.kafka_consumer vss hmark hdec
  have hcfail : (c.kafka_consumer.withPos
      (c.kafka_consumer.localPos + sets.length)).commit_consumed
      = Except.error "commit failed" :=
    Consumer.commit_consumed_fail _ (by simp [hcommit])
  have hpoll : c.poll = (Except.error
      (NodeStreamConsumerError.UnableToCommitMessageConsumed
        (c.topic.topic_for_epoch c.epoch) "commit failed"),
      { c with kafka_consumer :=
                 c.kafka_consumer.withPos
                   (c.kafka_consumer.localPos + sets.length) }) := by
    simp only [NodeStreamConsumer.poll, hfp, hproc, hcfail]
  exact ⟨by rw [hpoll], by rw [hpoll]; simp, by rw [hpoll]; simp⟩

/-- Witness for the C4 theorem: both sets decode and mark, the commit fails;
the local cursor ends at 2 while the committed cursor stays at 0. -/
theorem poll_commit_failure_diverges_witness :
    ((consumerFix [setA, setC] (fun _ => false) true).poll).1
      = Except.error (NodeStreamConsumerError.UnableToCommitMessageConsumed
          "events-epoch-3" "commit failed") ∧
    (((consumerFix [setA, setC] (fun _ => false) true).poll).2).kafka_consumer.localPos
      = 2 ∧
    (((consumerFix [setA, setC] (fun _ => false) true).poll).2).kafka_consumer.committedPos
      = 0 :=
  poll_commit_failure_diverges (consumerFix [setA, setC] (fun _ => false) true)
    [setA, setC] [[⟨7, 10⟩], [⟨8, 12⟩]] rfl rfl (by decide) rfl rfl

/-- **C9** (implicit): whenever the fetch succeeds and per-messageset
processing raises no error, the broker commit is attempted — in particular
when zero messagesets were fetched — so a poll on a topic with no new
messages can still fail with `UnableToCommitMessageConsumed` when the
commit collaborator fails. -/
theorem poll_commits_even_when_empty (c : NodeStreamConsumer D M)
    (sets : List MessageSet) (vss : List (List (NodeStreamMessage D)))
    (hfetch : c.kafka_consumer.fetchFail = false)
    (hq : c.kafka_consumer.queue.drop c.kafka_consumer.localPos = sets)
    (hmark : ∀ j, j < sets.length →
      c.kafka_consumer.markFailures (c.kafka_consumer.localPos + j) = false)
    (hdec : sets.mapM c.decode_messageset = Except.ok vss)
    (hcommit : c.kafka_consumer.commitFail = true) :
    (c.poll).1 = Except.error
      (NodeStreamConsumerError.UnableToCommitMessageConsumed
        (c.topic.topic_for_epoch c.epoch) "commit failed") := by
  have hfp : c.kafka_consumer.fetchPoll = Except.ok sets := by
    simp [Consumer.fetchPoll, hfetch, hq]
  have hproc := process_ok c sets c.kafka_consumer vss hmark hdec
  have hcfail : (c.kafka_consumer.withPos
      (c.kafka_consumer.localPos + sets.length)).commit_consumed
      = Except.error "commit failed" :=
    Consumer.commit_consumed_fail _ (by simp [hcommit])
  simp only [NodeStreamConsumer.poll, hfp, hproc, hcfail]

/-- Witness for the C9 theorem at the zero-messageset input: an empty queue
with a failing commit collaborator still surfaces
`UnableToCommitMessageConsumed`. -/
theorem poll_commits_even_when_empty_witness :
    ((consumerFix [] (fun _ => false) true).poll).1
      = Except.error (NodeStreamConsumerError.UnableToCommitMessageConsumed
          "events-epoch-3" "commit failed") :=
  poll_commits_even_when_empty (consumerFix [] (fun _ => false) true)
    [] [] rfl rfl (by decide) rfl rfl

/-- **C2**: when a fetched messageset contains an undecodable message (and
its local mark succeeds), `poll` still marks that set locally consumed —
the local cursor advances past it — then fails with
`PayloadDeserializeError`, processes no further messageset, and never
reaches the broker commit (the committed cursor is unchanged); a subsequent
fetch yields only the messagesets after the failing one, so no message of
the failing set is re-delivered. -/
theorem poll_decode_failure_skips_batch (c : NodeStreamConsumer D M)
    (ws₁ : List MessageSet) (w : MessageSet) (ws₂ : List MessageSet)
    (vss : List (List (NodeStreamMessage D))) (e : NodeStreamConsumerError)
    (hfetch : c.kafka_consumer.fetchFail = false)
    (hq : c.kafka_consumer.queue.drop c.kafka_consumer.localPos
      = ws₁ ++ w :: ws₂)
    (hdec1 : ws₁.mapM c.decode_messageset = Except.ok vss)
    (hdecw : c.decode_messageset w = Except.error e)
    (hmark : ∀ j, j ≤ ws₁.length →
      c.kafka_consumer.markFailures (c.kafka_consumer.localPos + j) = false) :
    (c.poll).1 = Except.error e ∧
    (∃ s, e = NodeStreamConsumerError.PayloadDeserializeError
      (c.topic.topic_for_epoch c.epoch) s) ∧
    ((c.poll).2).kafka_consumer.localPos
      = c.kafka_consumer.localPos + ws₁.length + 1 ∧
    ((c.poll).2).kafka_consumer.committedPos
      = c.kafka_consumer.committedPos ∧
    ((c.poll).2).kafka_consumer.fetchPoll = Except.ok ws₂ := by
  have hfp : c.kafka_consumer.fetchPoll = Except.ok (ws₁ ++ w :: ws₂) := by
    simp [Consumer.fetchPoll, hfetch, hq]
  have happ := process_append_ok c ws₁ c.kafka_consumer vss
    (fun j hj => hmark j (by omega)) hdec1 (w :: ws₂)
  have hmw : (c.kafka_consumer.withPos
      (c.kafka_consumer.localPos + ws₁.length)).markFailures
      ((c.kafka_consumer.withPos
        (c.kafka_consumer.localPos + ws₁.length)).localPos) = false := by
    simp only [Consumer.withPos_markFailures, Consumer.withPos_localPos]
    exact hmark ws₁.length (Nat.le_refl _)
  have hstep : c.process_messagesets (w :: ws₂)
      (c.kafka_consumer.withPos (c.kafka_consumer.localPos + ws₁.length))
      = (Except.error e,
         (c.kafka_consumer.withPos
             (c.kafka_consumer.localPos + ws₁.length)).withPos
           ((c.kafka_consumer.withPos
               (c.kafka_consumer.localPos + ws₁.length)).localPos + 1)) := by
    simp only [NodeStreamConsumer.process_messagesets,
      Consumer.consume_messageset_ok _ w hmw, hdecw]
  have hproc : c.process_messagesets (ws₁ ++ w :: ws₂) c.kafka_consumer
      = (Except.error e, c.kafka_consumer.withPos
          (c.kafka_consumer.localPos + ws₁.length + 1)) := by
    rw [happ, hstep]
    simp [Except.map]
  have hpoll : c.poll = (Except.error e,
      { c with kafka_consumer :=
                 c.kafka_consumer.withPos
                   (c.kafka_consumer.localPos + ws₁.length + 1) }) := by
    simp only [NodeStreamConsumer.poll, hfp, hproc]
  have hd := drop_prefix c.kafka_consumer.queue c.kafka_consumer.localPos
    (ws₁ ++ [w]) ws₂ (by rw [hq]; simp)
  have harith : c.kafka_consumer.localPos + (ws₁ ++ [w]).length
      = c.kafka_consumer.localPos + ws₁.length + 1 := by simp; omega
  rw [harith] at hd
  refine ⟨by rw [hpoll], decode_messageset_error_shape c w.messages e hdecw,
    by rw [hpoll]; simp, by rw [hpoll]; simp, ?_⟩
  rw [hpoll]
  simp [Consumer.fetchPoll, hfetch, hd]

/-- Witness for the C2 theorem: three one-message sets, the middle one
undecodable; the poll fails with `PayloadDeserializeError`, the cursor ends
past the bad set (2) with nothing committed, and a new fetch yields only
the third set. -/
theorem poll_decode_failure_skips_batch_witness :
    ((consumerFix [setA, setBad, setC] (fun _ => false) false).poll).1
      = Except.error (NodeStreamConsumerError.PayloadDeserializeError
          "events-epoch-3" "bad byte") ∧
    (∃ s, NodeStreamConsumerError.PayloadDeserializeError
        "events-epoch-3" "bad byte"
      = NodeStreamConsumerError.PayloadDeserializeError "events-epoch-3" s) ∧
    (((consumerFix [setA, setBad, setC] (fun _ => false) false).poll).2).kafka_consumer.localPos
      = 2 ∧
    (((consumerFix [setA, setBad, setC] (fun _ => false) false).poll).2).kafka_consumer.committedPos
      = 0 ∧
    (((consumerFix [setA, setBad, setC] (fun _ => false) false).poll).2).kafka_consumer.fetchPoll
      = Except.ok [setC] :=
  poll_decode_failure_skips_batch
    (consumerFix [setA, setBad, setC] (fun _ => false) false)
    [setA] setBad [setC] [[⟨7, 10⟩]]
    (NodeStreamConsumerError.PayloadDeserializeError "events-epoch-3"
      "bad byte")
    rfl rfl rfl rfl (by decide)

/-- **C7**: when the local mark of some fetched messageset fails (all
earlier sets having decoded and marked cleanly), `poll` fails with
`UnableToMarkMessageConsumed` and processes no further messageset: the
cursor keeps the advance of the earlier sets only, the commit is never
reached, and a subsequent fetch re-delivers the failing set and everything
after it. -/
theorem poll_mark_failure_stops (c : NodeStreamConsumer D M)
    (ws₁ : List MessageSet) (w : MessageSet) (ws₂ : List MessageSet)
    (vss : List (List (NodeStreamMessage D)))
    (hfetch : c.kafka_consumer.fetchFail = false)
    (hq : c.kafka_consumer.queue.drop c.kafka_consumer.localPos
      = ws₁ ++ w :: ws₂)
    (hdec1 : ws₁.mapM c.decode_messageset = Except.ok vss)
    (hmark1 : ∀ j, j < ws₁.length →
      c.kafka_consumer.markFailures (c.kafka_consumer.localPos + j) = false)
    (hmarkw : c.kafka_consumer.markFailures
      (c.kafka_consumer.localPos + ws₁.length) = true) :
    (c.poll).1 = Except.error
      (NodeStreamConsumerError.UnableToMarkMessageConsumed
        (c.topic.topic_for_epoch c.epoch) "consume failed") ∧
    ((c.poll).2).kafka_consumer.localPos
      = c.kafka_consumer.localPos + ws₁.length ∧
    ((c.poll).2).kafka_consumer.committedPos
      = c.kafka_consumer.committedPos ∧
    ((c.poll).2).kafka_consumer.fetchPoll = Except.ok (w :: ws₂) := by
  have hfp : c.kafka_consumer.fetchPoll = Except.ok (ws₁ ++ w :: ws₂) := by
    simp [Consumer.fetchPoll, hfetch, hq]
  have happ := process_append_ok c ws₁ c.kafka_consumer vss hmark1 hdec1
    (w :: ws₂)
  have hmw : (c.kafka_consumer.withPos
      (c.kafka_consumer.localPos + ws₁.length)).markFailures
      ((c.kafka_consumer.withPos
        (c.kafka_consumer.localPos + ws₁.length)).localPos) = true := by
    simp only [Consumer.withPos_markFailures, Consumer.withPos_localPos]
    exact hmarkw
  have hstep : c.process_messagesets (w :: ws₂)
      (c.kafka_consumer.withPos (c.kafka_consumer.localPos + ws₁.length))
      = (Except.error (NodeStreamConsumerError.UnableToMarkMessageConsumed
           (c.topic.topic_for_epoch c.epoch) "consume failed"),
         c.kafka_consumer.withPos
           (c.kafka_consumer.localPos + ws₁.length)) := by
    simp only [NodeStreamConsumer.process_messagesets,
      Consumer.consume_messageset_fail _ w hmw]
  have hproc : c.process_messagesets (ws₁ ++ w :: ws₂) c.kafka_consumer
      = (Except.error (NodeStreamConsumerError.UnableToMarkMessageConsumed
           (c.topic.topic_for_epoch c.epoch) "consume failed"),
         c.kafka_consumer.withPos
           (c.kafka_consumer.localPos + ws₁.length)) := by
    rw [happ, hstep]
    simp [Except.map]
  have hpoll : c.poll = (Except.error
      (NodeStreamConsumerError.UnableToMarkMessageConsumed
        (c.topic.topic_for_epoch c.epoch) "consume failed"),
      { c with kafka_consumer :=
                 c.kafka_consumer.withPos
                   (c.kafka_consumer.localPos + ws₁.length) }) := by
    simp only [NodeStreamConsumer.poll, hfp, hproc]
  have hd := drop_prefix c.kafka_consumer.queue c.kafka_consumer.localPos
    ws₁ (w :: ws₂) hq
  refine ⟨by rw [hpoll], by rw [hpoll]; simp, by rw [hpoll]; simp, ?_⟩
  rw [hpoll]
  simp [Consumer.fetchPoll, hfetch, hd]

/-- Witness for the C7 theorem: the first set marks cleanly, the mark of the
second set fails; the poll fails with `UnableToMarkMessageConsumed`, the
cursor stops at 1, nothing is committed, and a new fetch re-delivers the
second and third sets. -/
theorem poll_mark_failure_stops_witness :
    ((consumerFix [setA, setC, setC] (fun i => i == 1) false).poll).1
      = Except.error (NodeStreamConsumerError.UnableToMarkMessageConsumed
          "events-epoch-3" "consume failed") ∧
    (((consumerFix [setA, setC, setC] (fun i => i == 1) false).poll).2).kafka_consumer.localPos
      = 1 ∧
    (((consumerFix [setA, setC, setC] (fun i => i == 1) false).poll).2).kafka_consumer.committedPos
      = 0 ∧
    (((consumerFix [setA, setC, setC] (fun i => i == 1) false).poll).2).kafka_consumer.fetchPoll
      = Except.ok [setC, setC] :=
  poll_mark_failure_stops
    (consumerFix [setA, setC, setC] (fun i => i == 1) false)
    [setA] setC [setC] [[⟨7, 10⟩]] rfl rfl rfl (by decide) rfl

/-- **C10** (implicit): when a messageset both contains an undecodable
message and its own local mark fails, `poll` fails with
`UnableToMarkMessageConsumed`, not `PayloadDeserializeError` — the mark is
performed and its error propagated before the collected decode results of
the set are inspected. -/
theorem poll_mark_error_beats_decode_error (c : NodeStreamConsumer D M)
    (ws₁ : List MessageSet) (w : MessageSet) (ws₂ : List MessageSet)
    (vss : List (List (NodeStreamMessage D))) (e : NodeStreamConsumerError)
    (hfetch : c.kafka_consumer.fetchFail = false)
    (hq : c.kafka_consumer.queue.drop c.kafka_consumer.localPos
      = ws₁ ++ w :: ws₂)
    (hdec1 : ws₁.mapM c.decode_messageset = Except.ok vss)
    (hdecw : c.decode_messageset w = Except.error e)
    (hmark1 : ∀ j, j < ws₁.length →
      c.kafka_consumer.markFailures (c.kafka_consumer.localPos + j) = false)
    (hmarkw : c.kafka_consumer.markFailures
      (c.kafka_consumer.localPos + ws₁.length) = true) :
    (c.poll).1 = Except.error
      (NodeStreamConsumerError.UnableToMarkMessageConsumed
        (c.topic.topic_for_epoch c.epoch) "consume failed") ∧
    (∀ t s, (c.poll).1
      ≠ Except.error
          (NodeStreamConsumerError.PayloadDeserializeError t s)) := by
  have hfp : c.kafka_consumer.fetchPoll = Except.ok (ws₁ ++ w :: ws₂) := by
    simp [Consumer.fetchPoll, hfetch, hq]
  have happ := process_append_ok c ws₁ c.kafka_consumer vss hmark1 hdec1
    (w :: ws₂)
  have hmw : (c.kafka_consumer.withPos
      (c.kafka_consumer.localPos + ws₁.length)).markFailures
      ((c.kafka_consumer.withPos
        (c.kafka_consumer.localPos + ws₁.length)).localPos) = true := by
    simp only [Consumer.withPos_markFailures, Consumer.withPos_localPos]
    exact hmarkw
  have hstep : c.process_messagesets (w :: ws₂)
      (c.kafka_consumer.withPos (c.kafka_consumer.localPos + ws₁.length))
      = (Except.error (NodeStreamConsumerError.UnableToMarkMessageConsumed
           (c.topic.topic_for_epoch c.epoch) "consume failed"),
         c.kafka_consumer.withPos
           (c.kafka_consumer.localPos + ws₁.length)) := by
    simp only [NodeStreamConsumer.process_messagesets,
      Consumer.consume_messageset_fail _ w hmw]
  have hproc : c.process_messagesets (ws₁ ++ w :: ws₂) c.kafka_consumer
      = (Except.error (NodeStreamConsumerError.UnableToMarkMessageConsumed
           (c.topic.topic_for_epoch c.epoch) "consume failed"),
         c.kafka_consumer.withPos
           (c.kafka_consumer.localPos + ws₁.length)) := by
    rw [happ, hstep]
    simp [Except.map]
  have h1 : (c.poll).1 = Except.error
      (NodeStreamConsumerError.UnableToMarkMessageConsumed
        (c.topic.topic_for_epoch c.epoch) "consume failed") := by
    simp only [NodeStreamConsumer.poll, hfp, hproc]
  refine ⟨h1, ?_⟩
  intro t s hcontra
  rw [h1] at hcontra
  simp at hcontra

/-- Witness for the C10 theorem: the second set is undecodable and its mark
also fails; the poll surfaces the mark error, not the decode error. -/
theorem poll_mark_error_beats_decode_error_witness :
    ((consumerFix [setA, setBad, setC] (fun i => i == 1) false).poll).1
      = Except.error (NodeStreamConsumerError.UnableToMarkMessageConsumed
          "events-epoch-3" "consume failed") ∧
    ((consumerFix [setA, setBad, setC] (fun i => i == 1) false).poll).1
      ≠ Except.error (NodeStreamConsumerError.PayloadDeserializeError
          "events-epoch-3" "bad byte") := by
  have h := poll_mark_error_beats_decode_error
    (consumerFix [setA, setBad, setC] (fun i => i == 1) false)
    [setA] setBad [setC] [[⟨7, 10⟩]]
    (NodeStreamConsumerError.PayloadDeserializeError "events-epoch-3"
      "bad byte")
    rfl rfl rfl rfl (by decide) rfl
  exact ⟨h.1, h.2 "events-epoch-3" "bad byte"⟩

end NodeStream
